import Mathlib

/-!
# Verification of the xk6-output-dynatrace core

Shallow embedding of the k6 Dynatrace output extension
(`pkg/dynatracewriter/config.go` and the output/flush source file), together
with proofs about the layered configuration merge, the finalize step, the
sample conversion pipeline, the payload encoder and the flush backpressure /
error-handling behaviour.

Modelling conventions:
* Go `map[string]string` values are modelled as association lists with the
  usual unique-key discipline; `m[k] = v` is `setAssoc`.
* `null.Bool` / `null.String` (gopkg.in/guregu/null.v3) and
  `types.NullDuration` (go.k6.io/k6/lib/types) are structures carrying the
  raw value together with a `valid` flag, exactly as in the Go library: the
  raw value stays accessible even when `valid` is `false` (the code reads
  `conf.ApiToken.String` without consulting `Valid`).
* Durations are nanosecond counts (`Int`), as in Go's `time.Duration`.
* Fallible Go functions returning `(T, error)` become `Except String T`.
* The external parsers (`encoding/json`, helm's `strvals.Parse`) are not
  re-implemented: the JSON blob is modelled as the already-decoded
  `Option Config` and the argument string as the already-parsed dynamic
  key/value map, which is exactly the data the repository code consumes.
-/

set_option autoImplicit false

namespace dynatracewriter

/-- Raw string value plus validity flag, mirroring `null.String` from
gopkg.in/guregu/null.v3 (`String` field readable regardless of `Valid`). -/
structure NullString where
  string : String
  valid : Bool
deriving DecidableEq, Repr

/-- Raw boolean value plus validity flag, mirroring `null.Bool`. -/
structure NullBool where
  bool : Bool
  valid : Bool
deriving DecidableEq, Repr

/-- Nanosecond duration plus validity flag, mirroring k6's
`types.NullDuration`. -/
structure NullDuration where
  duration : Int
  valid : Bool
deriving DecidableEq, Repr

/-- `defaultFlushPeriod = time.Second` in nanoseconds (config.go). -/
def defaultFlushPeriod : Int := 1000000000

/-- `defaultDynatraceMetricEndPoint = "/api/v2/metrics/ingest"` (config.go). -/
def defaultDynatraceMetricEndPoint : String := "/api/v2/metrics/ingest"

/-- The `Config` struct of config.go. -/
structure Config where
  Url : String
  Headers : List (String × String)
  InsecureSkipTLSVerify : NullBool
  CACert : NullString
  ApiToken : NullString
  FlushPeriod : NullDuration
  KeepTags : NullBool
  KeepNameTag : NullBool
  KeepUrlTag : NullBool
deriving DecidableEq, Repr

/-- The Go zero value of `Config` (`Config{}` / `var c Config`): empty
strings, nil map, all nullable wrappers invalid. -/
def zeroConfig : Config :=
  { Url := ""
    Headers := []
    InsecureSkipTLSVerify := ⟨false, false⟩
    CACert := ⟨"", false⟩
    ApiToken := ⟨"", false⟩
    FlushPeriod := ⟨0, false⟩
    KeepTags := ⟨false, false⟩
    KeepNameTag := ⟨false, false⟩
    KeepUrlTag := ⟨false, false⟩ }

/-- `NewConfig` (config.go): the built-in defaults layer. -/
def NewConfig : Config :=
  { Url := "https://dynatrace.live.com"
    Headers := []
    InsecureSkipTLSVerify := ⟨true, true⟩
    CACert := ⟨"", false⟩
    ApiToken := ⟨"", false⟩
    FlushPeriod := ⟨defaultFlushPeriod, true⟩
    KeepTags := ⟨true, true⟩
    KeepNameTag := ⟨false, true⟩
    KeepUrlTag := ⟨true, true⟩ }

/-- Go map lookup `m[k]` on the association-list model. -/
def lookupH : List (String × String) → String → Option String
  | [], _ => none
  | kv :: rest, k => if kv.1 = k then some kv.2 else lookupH rest k

/-- Go map assignment `m[k] = v` on the association-list model: replace the
entry for `k` if present, otherwise append it. -/
def setAssoc : List (String × String) → String → String → List (String × String)
  | [], k, v => [(k, v)]
  | kv :: rest, k, v => if kv.1 = k then (k, v) :: rest else kv :: setAssoc rest k v

/-- First-`some` choice, used to state map-merge facts. -/
def lookupOr (a b : Option String) : Option String :=
  match a with
  | some v => some v
  | none => b

/-- `Config.Apply` (config.go lines 70-114).  Each `if` in the Go source
guards a distinct field, so the sequence of conditional assignments is the
record built field by field below, in the same order and with the same
conditions: a nonempty URL, a `Valid` nullable, or a nonempty header map
override the base; the header override writes each applied entry into the
base map (`base.Headers[k] = v`). -/
def Config.Apply (base applied : Config) : Config :=
  { Url := if applied.Url.length > 0 then applied.Url else base.Url
    InsecureSkipTLSVerify :=
      if applied.InsecureSkipTLSVerify.valid then applied.InsecureSkipTLSVerify
      else base.InsecureSkipTLSVerify
    CACert := if applied.CACert.valid then applied.CACert else base.CACert
    ApiToken := if applied.ApiToken.valid then applied.ApiToken else base.ApiToken
    FlushPeriod := if applied.FlushPeriod.valid then applied.FlushPeriod else base.FlushPeriod
    KeepTags := if applied.KeepTags.valid then applied.KeepTags else base.KeepTags
    KeepNameTag := if applied.KeepNameTag.valid then applied.KeepNameTag else base.KeepNameTag
    KeepUrlTag := if applied.KeepUrlTag.valid then applied.KeepUrlTag else base.KeepUrlTag
    Headers :=
      if applied.Headers.length > 0 then
        applied.Headers.foldl (fun m kv => setAssoc m kv.1 kv.2) base.Headers
      else base.Headers }

/-- Model of Go `strconv.ParseBool`: exactly the strings it accepts. -/
def goParseBool (s : String) : Option Bool :=
  if s = "1" ∨ s = "t" ∨ s = "T" ∨ s = "true" ∨ s = "TRUE" ∨ s = "True" then some true
  else if s = "0" ∨ s = "f" ∨ s = "F" ∨ s = "false" ∨ s = "FALSE" ∨ s = "False" then some false
  else none

/-- Nanoseconds per duration unit accepted by the duration grammar. -/
def durationUnitNs (u : String) : Option Int :=
  if u = "ns" then some 1
  else if u = "us" then some 1000
  else if u = "ms" then some 1000000
  else if u = "s" then some 1000000000
  else if u = "m" then some 60000000000
  else if u = "h" then some 3600000000000
  else if u = "d" then some 86400000000000
  else none

/-- Decimal value of a digit list (most significant first). -/
def digitsToNat (cs : List Char) : Nat :=
  cs.foldl (fun n c => 10 * n + (c.toNat - 48)) 0

/-- Model of `types.NullDuration.UnmarshalText` (k6's extended Go duration
parser), restricted to the simple `<decimal digits><unit>` shapes used by
this development: anything else fails to parse. -/
def goParseDuration (s : String) : Option Int :=
  let digits := s.data.takeWhile Char.isDigit
  let rest : String := ⟨s.data.drop digits.length⟩
  if digits = [] then none
  else
    match durationUnitNs rest with
    | some mult => some ((digitsToNat digits : Int) * mult)
    | none => none

/-- Model of Go's `url.Parse` followed by `URL.String()`: `url.Parse`
rejects ASCII control characters and round-trips every URL appearing in
this development unchanged (it performs no path normalization, in
particular it does not collapse `//`). -/
def urlParseRT (s : String) : Option String :=
  if s.data.any (fun c => decide (c.toNat < 32 ∨ c.toNat = 127)) then none else some s

/-- `Config.ConstructConfig` (config.go lines 48-66): parse
`conf.Url + defaultDynatraceMetricEndPoint`, fail if the API token string is
empty, otherwise inject the three fixed headers and rewrite `Url` to the
parsed string. -/
def Config.ConstructConfig (conf : Config) : Except String Config :=
  match urlParseRT (conf.Url ++ defaultDynatraceMetricEndPoint) with
  | none => .error "net/url: invalid control character in URL"
  | some u =>
    if conf.ApiToken.string.length = 0 then
      .error "The Dynatrace API token can not been empty or Null"
    else
      .ok { conf with
            Headers :=
              setAssoc
                (setAssoc
                  (setAssoc conf.Headers "Content-Type" "text/plain; charset=utf-8")
                  "Authorization" ("Api-Token " ++ conf.ApiToken.string))
                "accept" "*/*"
            Url := u }

/-- Dynamic values inside a map produced by helm's `strvals.Parse`:
`ParseArg` only type-switches on the string-valued entries of the `headers`
map, so one level of leaves suffices. -/
inductive DynLeaf where
  | str (s : String)
  | boolean (b : Bool)
  | num (n : Int)
deriving DecidableEq, Repr

/-- Dynamic values produced by helm's `strvals.Parse` for the argument
string: strings, booleans, maps (and a catch-all numeric case), the shapes
`ParseArg` type-switches on. -/
inductive DynVal where
  | str (s : String)
  | boolean (b : Bool)
  | dict (m : List (String × DynLeaf))
  | num (n : Int)
deriving DecidableEq, Repr

/-- Lookup in the parsed argument map `params[k]`. -/
def lookupParam : List (String × DynVal) → String → Option DynVal
  | [], _ => none
  | kv :: rest, k => if kv.1 = k then some kv.2 else lookupParam rest k

/-- The field-by-field body of `ParseArg` (config.go lines 117-169), minus
the fallible `flushPeriod` step.  Each `if v, ok := params[key].(T); ok`
type assertion in the Go source sets a distinct field of the zero `Config`,
so the sequence is the record below: a recognized key bound to a value of
the wrong dynamic type leaves its field at the zero value, and `Headers` is
always a fresh map, filled only from string-valued entries of a
`headers` map. -/
def parseArgBase (params : List (String × DynVal)) : Config :=
  { Url :=
      match lookupParam params "url" with
      | some (.str v) => v
      | _ => ""
    InsecureSkipTLSVerify :=
      match lookupParam params "insecureSkipTLSVerify" with
      | some (.boolean v) => ⟨v, true⟩
      | _ => ⟨false, false⟩
    CACert :=
      match lookupParam params "caCertFile" with
      | some (.str v) => ⟨v, true⟩
      | _ => ⟨"", false⟩
    ApiToken :=
      match lookupParam params "apitoken" with
      | some (.str v) => ⟨v, true⟩
      | _ => ⟨"", false⟩
    FlushPeriod := ⟨0, false⟩
    KeepTags :=
      match lookupParam params "keepTags" with
      | some (.boolean v) => ⟨v, true⟩
      | _ => ⟨false, false⟩
    KeepNameTag :=
      match lookupParam params "keepNameTag" with
      | some (.boolean v) => ⟨v, true⟩
      | _ => ⟨false, false⟩
    KeepUrlTag :=
      match lookupParam params "keepUrlTag" with
      | some (.boolean v) => ⟨v, true⟩
      | _ => ⟨false, false⟩
    Headers :=
      match lookupParam params "headers" with
      | some (.dict m) =>
        m.filterMap (fun kv =>
          match kv.2 with
          | .str s => some (kv.1, s)
          | _ => none)
      | _ => [] }

/-- `ParseArg` over the already-parsed argument map: as in the Go source,
only the `flushPeriod` step can fail, and only when the key is bound to a
string that the duration parser rejects; the error return discards the
partially-built config. -/
def ParseArg (params : List (String × DynVal)) : Except String Config :=
  match lookupParam params "flushPeriod" with
  | some (.str v) =>
    match goParseDuration v with
    | none => .error ("time: invalid duration " ++ v)
    | some d => .ok { parseArgBase params with FlushPeriod := ⟨d, true⟩ }
  | _ => .ok (parseArgBase params)

/-- The JSON layer of `GetConsolidatedConfig` (config.go lines 174-181):
`nil` raw JSON skips the layer, otherwise the decoded `Config` is applied
onto the defaults.  The blob is modelled as the already-decoded
`Option Config`. -/
def applyJsonStage (base : Config) (jsonConf : Option Config) : Config :=
  match jsonConf with
  | none => base
  | some jc => base.Apply jc

/-- Environment lookup `v, ok := env[name]`. -/
def envLookup : List (String × String) → String → Option String
  | [], _ => none
  | kv :: rest, k => if kv.1 = k then some kv.2 else envLookup rest k

/-- `getEnvBool` (config.go lines 183-192): an undefined variable yields the
invalid `null.Bool`; a defined one must parse or the error is surfaced. -/
def getEnvBool (env : List (String × String)) (name : String) : Except String NullBool :=
  match envLookup env name with
  | some v =>
    match goParseBool v with
    | none => .error ("strconv.ParseBool: parsing " ++ v)
    | some b => .ok ⟨b, true⟩
  | none => .ok ⟨false, false⟩

/-- `getEnvMap` (config.go lines 194-203): the entries of `env` whose key
starts with the header prefix, with the prefix trimmed
(`strings.HasPrefix` / `strings.TrimPrefix`, here as a character-list
prefix test). -/
def envHeaderPairs (env : List (String × String)) : List (String × String) :=
  env.filterMap (fun kv =>
    if "K6_DYNATRACE_HEADER".data.isPrefixOf kv.1.data then
      some (kv.1.drop ("K6_DYNATRACE_HEADER".length), kv.2)
    else none)

/-- The manual `K6_DYNATRACE_FLUSH_PERIOD` step (config.go lines 206-210). -/
def envStepFlush (env : List (String × String)) (cfg : Config) : Except String Config :=
  match envLookup env "K6_DYNATRACE_FLUSH_PERIOD" with
  | some v =>
    match goParseDuration v with
    | none => .error ("time: invalid duration " ++ v)
    | some d => .ok { cfg with FlushPeriod := ⟨d, true⟩ }
  | none => .ok cfg

/-- The `K6_DYNATRACE_URL` step (config.go lines 214-216): a defined
variable overwrites the URL unconditionally, even with an empty string. -/
def envStepUrl (env : List (String × String)) (cfg : Config) : Config :=
  match envLookup env "K6_DYNATRACE_URL" with
  | some u => { cfg with Url := u }
  | none => cfg

/-- The `K6_DYNATRACE_INSECURE_SKIP_TLS_VERIFY` step (lines 218-225). -/
def envStepSkipTLS (env : List (String × String)) (cfg : Config) : Except String Config :=
  match getEnvBool env "K6_DYNATRACE_INSECURE_SKIP_TLS_VERIFY" with
  | .error e => .error e
  | .ok b => .ok (if b.valid then { cfg with InsecureSkipTLSVerify := b } else cfg)

/-- The `K6_CA_CERT_FILE` step (lines 227-229): a defined variable becomes a
valid `null.String`, even when empty. -/
def envStepCACert (env : List (String × String)) (cfg : Config) : Config :=
  match envLookup env "K6_CA_CERT_FILE" with
  | some v => { cfg with CACert := ⟨v, true⟩ }
  | none => cfg

/-- The `K6_DYNATRACE_APITOKEN` step (lines 231-233). -/
def envStepApiToken (env : List (String × String)) (cfg : Config) : Config :=
  match envLookup env "K6_DYNATRACE_APITOKEN" with
  | some v => { cfg with ApiToken := ⟨v, true⟩ }
  | none => cfg

/-- The `K6_KEEP_TAGS` step (lines 236-242). -/
def envStepKeepTags (env : List (String × String)) (cfg : Config) : Except String Config :=
  match getEnvBool env "K6_KEEP_TAGS" with
  | .error e => .error e
  | .ok b => .ok (if b.valid then { cfg with KeepTags := b } else cfg)

/-- The `K6_KEEP_NAME_TAG` step (lines 244-250). -/
def envStepKeepNameTag (env : List (String × String)) (cfg : Config) : Except String Config :=
  match getEnvBool env "K6_KEEP_NAME_TAG" with
  | .error e => .error e
  | .ok b => .ok (if b.valid then { cfg with KeepNameTag := b } else cfg)

/-- The `K6_KEEP_URL_TAG` step (lines 252-258). -/
def envStepKeepUrlTag (env : List (String × String)) (cfg : Config) : Except String Config :=
  match getEnvBool env "K6_KEEP_URL_TAG" with
  | .error e => .error e
  | .ok b => .ok (if b.valid then { cfg with KeepUrlTag := b } else cfg)

/-- The env-header merge loop (lines 260-263): every trimmed
`K6_DYNATRACE_HEADER*` entry is written into the result map. -/
def envStepHeaders (env : List (String × String)) (cfg : Config) : Config :=
  { cfg with
    Headers := (envHeaderPairs env).foldl (fun m kv => setAssoc m kv.1 kv.2) cfg.Headers }

/-- The environment layer of `GetConsolidatedConfig` (config.go lines
206-263), the nine steps in source order, propagating the first parse
error. -/
def applyEnvStage (cfg : Config) (env : List (String × String)) : Except String Config :=
  (envStepFlush env cfg).bind (fun c1 =>
    (envStepSkipTLS env (envStepUrl env c1)).bind (fun c3 =>
      (envStepKeepTags env (envStepApiToken env (envStepCACert env c3))).bind (fun c6 =>
        (envStepKeepNameTag env c6).bind (fun c7 =>
          (envStepKeepUrlTag env c7).bind (fun c8 =>
            Except.ok (envStepHeaders env c8))))))

/-- The argument layer of `GetConsolidatedConfig` (config.go lines 265-272):
an empty argument string (`none`) skips the layer, otherwise the parsed
argument config is applied; a `ParseArg` error is propagated. -/
def applyArgStage (cfg : Config) (arg : Option (List (String × DynVal))) : Except String Config :=
  match arg with
  | none => .ok cfg
  | some params =>
    match ParseArg params with
    | .error e => .error e
    | .ok argConf => .ok (cfg.Apply argConf)

/-- `GetConsolidatedConfig` (config.go lines 173-275): defaults, then the
JSON layer, then the environment layer, then the argument layer. -/
def GetConsolidatedConfig (jsonConf : Option Config) (env : List (String × String))
    (arg : Option (List (String × DynVal))) : Except String Config :=
  match applyEnvStage (applyJsonStage NewConfig jsonConf) env with
  | .error e => .error e
  | .ok r => applyArgStage r arg

/-- One k6 metric sample: name, numeric value (the Go `float64` value plays
no role in any claim and is modelled as an integer), timestamp, and the
sample's own tag map. -/
structure Sample where
  name : String
  value : Int
  timestamp : Int
  tags : List (String × String)
deriving DecidableEq, Repr

/-- A `stats.SampleContainer`: a batch of samples reported together. -/
structure SampleContainer where
  samples : List Sample
deriving DecidableEq, Repr

/-- One line of the Dynatrace ingestion wire format (the `dynatraceMetric`
record of the output source). -/
structure dynatraceMetric where
  name : String
  tags : List (String × String)
  value : Int
  timestamp : Int
deriving DecidableEq, Repr

/-- The record built for one sample, carrying that sample's own tag set. -/
def sampleRecord (s : Sample) : dynatraceMetric :=
  ⟨s.name, s.tags, s.value, s.timestamp⟩

/-- Modelled from the spec: `samleToDynametric` is called from
`convertToTimeDynatraceData` but its definition is not among the provided
sources.  Per the spec (SampleConverter), it emits exactly one metric-line
record per sample, carrying that sample's own tag set; the call site
appends its result with `...`, so it returns a slice, here a singleton
list. -/
def samleToDynametric (s : Sample) : List dynatraceMetric :=
  [sampleRecord s]

/-- The container loop of `convertToTimeDynatraceData` (output source lines
128-156): extend the accumulated series with every sample of the container
(`dynTimeSeries = append(dynTimeSeries, dynametric...)`), then, after the
container, break out of the loop when the backpressure flag is set and more
than 150000 records have been produced.  (The Go source spells the length
check `len(promTimeSeries)`, a leftover identifier; the accumulated
`dynTimeSeries` is the only series in scope.) -/
def convertLoop (flushTooLong : Bool) (acc : List dynatraceMetric) :
    List SampleContainer → List dynatraceMetric
  | [] => acc
  | c :: rest =>
    let acc2 := c.samples.foldl (fun l s => l ++ samleToDynametric s) acc
    if flushTooLong ∧ acc2.length > 150000 then acc2
    else convertLoop flushTooLong acc2 rest

/-- `convertToTimeDynatraceData`: run the container loop on an empty
accumulator; the backpressure flag `flushTooLong` (a package-level variable
in Go) is passed explicitly. -/
def convertToTimeDynatraceData (flushTooLong : Bool)
    (samplesContainers : List SampleContainer) : List dynatraceMetric :=
  convertLoop flushTooLong [] samplesContainers

/-- All samples of the containers, in container order then sample order. -/
def allSamples : List SampleContainer → List Sample
  | [] => []
  | c :: rest => c.samples ++ allSamples rest

/-- Total number of samples across the containers. -/
def totalSamples : List SampleContainer → Nat
  | [] => 0
  | c :: rest => c.samples.length + totalSamples rest

/-- Modelled from the spec: the `dynatraceMetric.toText` renderer is called
from `generatePayload` but is not among the provided sources.  Per the spec
(PayloadEncoder / MetricLineRecord), each record renders to a single line
of the line protocol: metric name, the tag set as comma-separated
`key=value` pairs, then value and timestamp. -/
def dynatraceMetric.toText (m : dynatraceMetric) : String :=
  m.name
    ++ m.tags.foldl (fun acc kv => acc ++ "," ++ kv.1 ++ "=" ++ kv.2) ""
    ++ " " ++ toString m.value ++ " " ++ toString m.timestamp

/-- `generatePayload` (output source lines 118-126): concatenate
`record.toText() + "\n"` over the records in order, starting from the empty
string.  (The Go loop condition is spelled `e < len(...)`, a leftover
identifier for the loop counter `i`.) -/
def generatePayload (dynatraceMetrics : List dynatraceMetric) : String :=
  dynatraceMetrics.foldl (fun result m => result ++ m.toText ++ "\n") ""

/-- Outcome of one flush cycle: either the cycle runs to completion, or the
transport error path fires `logger.Fatal`, which (logrus semantics) calls
`os.Exit(1)` and terminates the process, skipping deferred functions. -/
inductive FlushOutcome where
  | completed
  | fatalExit
deriving DecidableEq, Repr

/-- The `flush` method (output source lines 65-116) as a function of the
data it consumes in one cycle: the current backpressure flag, the drained
sample containers, the result of the HTTP send (`none` = success,
`some msg` = transport error), the cycle's elapsed time and the configured
flush period (nanoseconds).  It returns the converted records, the encoded
payload, the outcome and the new value of the package-level `flushTooLong`
flag.  On a send error `logger.Fatal` exits the process before the deferred
timing block can run, so the flag is left unchanged; on success the
deferred block sets the flag to whether the elapsed time exceeded the flush
period. -/
def flush (flushTooLong : Bool) (samplesContainers : List SampleContainer)
    (sendError : Option String) (elapsed flushPeriod : Int) :
    List dynatraceMetric × String × FlushOutcome × Bool :=
  let dynatraceMetrics := convertToTimeDynatraceData flushTooLong samplesContainers
  let payload := generatePayload dynatraceMetrics
  match sendError with
  | some _ => (dynatraceMetrics, payload, FlushOutcome.fatalExit, flushTooLong)
  | none => (dynatraceMetrics, payload, FlushOutcome.completed, decide (flushPeriod < elapsed))

/-! ## Helper lemmas -/

theorem urlParseRT_some {s u : String} (h : urlParseRT s = some u) : u = s := by
  unfold urlParseRT at h
  split at h
  · exact Option.noConfusion h
  · exact (Option.some.injEq _ _ ▸ h).symm

theorem constructConfig_ok {conf c : Config} (h : conf.ConstructConfig = Except.ok c) :
    c.Url = conf.Url ++ defaultDynatraceMetricEndPoint ∧ c.ApiToken = conf.ApiToken := by
  unfold Config.ConstructConfig at h
  split at h
  · exact Except.noConfusion h
  · next u hu =>
    split at h
    · exact Except.noConfusion h
    · injection h with h
      subst h
      exact ⟨urlParseRT_some hu, rfl⟩

/-! ## C2: the finalize scenario -/

/-- The input of the C2 scenario: `Config{Url: "https://x.example/",
ApiToken: "abc"}`, all other fields at their Go zero values. -/
def c2conf : Config :=
  { zeroConfig with Url := "https://x.example/", ApiToken := ⟨"abc", true⟩ }

/-- Claim C2, counterexample: on `Config{Url: "https://x.example/",
ApiToken: "abc"}` the finalize step produces the URL
`https://x.example//api/v2/metrics/ingest` — with a double slash, because
the ingestion path is appended verbatim to a base URL that already ends in
a slash — which differs from the URL the claim states. -/
theorem c2_finalize_counterexample :
    (c2conf.ConstructConfig).map Config.Url
      = Except.ok "https://x.example//api/v2/metrics/ingest"
    ∧ ("https://x.example//api/v2/metrics/ingest" : String)
      ≠ "https://x.example/api/v2/metrics/ingest" := by
  exact ⟨rfl, by decide⟩

/-- Claim C2, amended: for the input Config with Url "https://x.example/"
and ApiToken "abc", ConstructConfig succeeds and returns a Config whose Url
equals "https://x.example//api/v2/metrics/ingest" (the suffix is appended
to the trailing slash without normalization) and whose Headers contain
Authorization: "Api-Token abc". -/
theorem c2_finalize_scenario :
    (c2conf.ConstructConfig).map (fun c => (c.Url, lookupH c.Headers "Authorization"))
      = Except.ok ("https://x.example//api/v2/metrics/ingest", some "Api-Token abc") := by
  rfl

/-! ## C3: calling finalize twice double-appends the ingestion path -/

/-- Claim C3, counterexample: on a valid Config, applying ConstructConfig
twice appends the ingestion path twice, so the URL after the second call
differs from the URL after the first call. -/
theorem c3_twice_counterexample :
    ((c2conf.ConstructConfig).bind Config.ConstructConfig).map Config.Url
      = Except.ok "https://x.example//api/v2/metrics/ingest/api/v2/metrics/ingest"
    ∧ ("https://x.example//api/v2/metrics/ingest/api/v2/metrics/ingest" : String)
      ≠ "https://x.example//api/v2/metrics/ingest" := by
  exact ⟨rfl, by decide⟩

/-- Claim C3, amended: ConstructConfig appends the ingestion-path suffix
unconditionally, so whenever two successive calls both succeed, the URL
after the second call is the URL after the first call with the suffix
appended again — in particular it never equals the URL after the first
call. -/
theorem c3_twice_appends_again (conf c1 c2 : Config)
    (h1 : conf.ConstructConfig = Except.ok c1)
    (h2 : c1.ConstructConfig = Except.ok c2) :
    c2.Url = c1.Url ++ defaultDynatraceMetricEndPoint ∧ c2.Url ≠ c1.Url := by
  refine ⟨(constructConfig_ok h2).1, ?_⟩
  rw [(constructConfig_ok h2).1]
  intro heq
  have hlen := congrArg String.length heq
  rw [String.length_append] at hlen
  have : defaultDynatraceMetricEndPoint.length = 22 := by decide
  omega

/-- The Config produced by the first ConstructConfig call on `c2conf`. -/
def c3mid : Config :=
  { c2conf with
    Url := "https://x.example//api/v2/metrics/ingest"
    Headers := [("Content-Type", "text/plain; charset=utf-8"),
                ("Authorization", "Api-Token abc"), ("accept", "*/*")] }

/-- The Config produced by the second ConstructConfig call. -/
def c3fin : Config :=
  { c3mid with Url := "https://x.example//api/v2/metrics/ingest/api/v2/metrics/ingest" }

theorem c3_twice_appends_again_witness :
    c2conf.ConstructConfig = Except.ok c3mid
    ∧ c3mid.ConstructConfig = Except.ok c3fin
    ∧ (c3fin.Url = c3mid.Url ++ defaultDynatraceMetricEndPoint ∧ c3fin.Url ≠ c3mid.Url) := by
  exact ⟨rfl, rfl, c3_twice_appends_again c2conf c3mid c3fin rfl rfl⟩

/-! ## C5: empty API token always fails finalize -/

/-- Claim C5: for every Config whose API token string is empty,
ConstructConfig returns an error (either the URL-parse error or the
token-validation error fires before any header is written; since the error
return carries no Config, no header entry is produced on the failure
path). -/
theorem c5_empty_token_fails (conf : Config) (h : conf.ApiToken.string = "") :
    ∃ e, conf.ConstructConfig = Except.error e := by
  unfold Config.ConstructConfig
  cases hu : urlParseRT (conf.Url ++ defaultDynatraceMetricEndPoint) with
  | none => exact ⟨_, rfl⟩
  | some u =>
    have hlen : conf.ApiToken.string.length = 0 := by rw [h]; rfl
    refine ⟨"The Dynatrace API token can not been empty or Null", ?_⟩
    simp [hlen]

theorem c5_empty_token_fails_witness :
    zeroConfig.ApiToken.string = "" ∧ ∃ e, zeroConfig.ConstructConfig = Except.error e := by
  exact ⟨rfl, c5_empty_token_fails zeroConfig rfl⟩

/-! ## C8: a transport failure terminates the process -/

/-- Claim C8, counterexample: a flush whose HTTP send fails reaches
`logger.Fatal`, i.e. the process exits — the failure is not contained
within the flush cycle. -/
theorem c8_send_failure_counterexample :
    (flush false [] (some "connection refused") 0 1000000000).2.2.1 = FlushOutcome.fatalExit
    ∧ FlushOutcome.fatalExit ≠ FlushOutcome.completed := by
  exact ⟨rfl, by decide⟩

/-- Claim C8, amended: a transport-level send failure in a flush cycle
triggers `logger.Fatal`, which terminates the process (skipping even the
deferred backpressure update, so the flag keeps its previous value); only a
flush whose send succeeds completes normally. -/
theorem c8_send_failure_fatal :
    ∀ (f : Bool) (cs : List SampleContainer) (e : String) (elapsed period : Int),
      (flush f cs (some e) elapsed period).2.2.1 = FlushOutcome.fatalExit
      ∧ (flush f cs (some e) elapsed period).2.2.2 = f
      ∧ (flush f cs none elapsed period).2.2.1 = FlushOutcome.completed := by
  intro f cs e elapsed period
  exact ⟨rfl, rfl, rfl⟩

/-! ## C9: the payload encoder -/

theorem string_eq_of_data {a b : String} (h : a.data = b.data) : a = b := by
  cases a
  cases b
  exact congrArg String.mk h

theorem generatePayload_data (ms : List dynatraceMetric) :
    ∀ acc : String,
      (ms.foldl (fun result m => result ++ m.toText ++ "\n") acc).data
        = acc.data ++ (ms.map (fun m => m.toText.data ++ ['\n'])).flatten := by
  induction ms with
  | nil => intro acc; simp
  | cons m rest ih =>
    intro acc
    simp only [List.foldl_cons, List.map_cons, List.flatten_cons, ih, String.data_append]
    simp [List.append_assoc]

theorem join_data (l : List String) : (String.join l).data = (l.map String.data).flatten := by
  have aux : ∀ acc : String,
      (l.foldl (fun r s => r ++ s) acc).data = acc.data ++ (l.map String.data).flatten := by
    induction l with
    | nil => intro acc; simp
    | cons s rest ih =>
      intro acc
      simp only [List.foldl_cons, List.map_cons, List.flatten_cons, ih, String.data_append]
      simp [List.append_assoc]
  simpa using aux ""

theorem count_lines (ms : List dynatraceMetric)
    (hfree : ∀ m ∈ ms, (dynatraceMetric.toText m).data.count '\n' = 0) :
    ((ms.map (fun m => m.toText.data ++ ['\n'])).flatten).count '\n' = ms.length := by
  induction ms with
  | nil => simp
  | cons m rest ih =>
    simp only [List.map_cons, List.flatten_cons, List.count_append, List.length_cons]
    rw [hfree m (by simp), ih (fun x hx => hfree x (by simp [hx]))]
    simp
    omega

/-- Claim C9: the encoder applied to the empty record sequence returns the
empty string, and applied to any sequence of k records whose renderings are
newline-free (the renderer emits one line per record) returns the
newline-joined, newline-terminated renderings in input order — a string
containing exactly k newline characters, i.e. exactly k newline-terminated
lines. -/
theorem c9_encoder (ms : List dynatraceMetric)
    (hfree : ∀ m ∈ ms, (dynatraceMetric.toText m).data.count '\n' = 0) :
    generatePayload [] = ""
    ∧ generatePayload ms = String.join (ms.map (fun m => m.toText ++ "\n"))
    ∧ (generatePayload ms).data.count '\n' = ms.length := by
  have hdata : (generatePayload ms).data
      = (ms.map (fun m => m.toText.data ++ ['\n'])).flatten := by
    simpa [generatePayload] using generatePayload_data ms ""
  have hnl : ("\n" : String).data = ['\n'] := rfl
  refine ⟨rfl, ?_, ?_⟩
  · apply string_eq_of_data
    rw [hdata, join_data]
    simp [List.map_map, Function.comp_def, String.data_append, hnl]
  · rw [hdata]
    exact count_lines ms hfree

/-- Two concrete records with newline-free renderings. -/
def c9records : List dynatraceMetric :=
  [⟨"m", [("a", "b")], 1, 2⟩, ⟨"n", [], 3, 4⟩]

theorem c9_encoder_witness :
    (∀ m ∈ c9records, (dynatraceMetric.toText m).data.count '\n' = 0)
    ∧ (generatePayload [] = ""
        ∧ generatePayload c9records = String.join (c9records.map (fun m => m.toText ++ "\n"))
        ∧ (generatePayload c9records).data.count '\n' = c9records.length) := by
  exact ⟨by decide, c9_encoder c9records (by decide)⟩

/-! ## Converter lemmas -/

theorem foldl_samples (ss : List Sample) :
    ∀ acc : List dynatraceMetric,
      ss.foldl (fun l s => l ++ samleToDynametric s) acc = acc ++ ss.map sampleRecord := by
  induction ss with
  | nil => intro acc; simp
  | cons s rest ih =>
    intro acc
    rw [List.foldl_cons, ih]
    simp [samleToDynametric]

theorem convertLoop_cons (f : Bool) (acc : List dynatraceMetric) (c : SampleContainer)
    (rest : List SampleContainer) :
    convertLoop f acc (c :: rest)
      = if f ∧ (acc ++ c.samples.map sampleRecord).length > 150000
        then acc ++ c.samples.map sampleRecord
        else convertLoop f (acc ++ c.samples.map sampleRecord) rest := by
  simp only [convertLoop, foldl_samples]

theorem convertLoop_no_backpressure (cs : List SampleContainer) :
    ∀ acc, convertLoop false acc cs = acc ++ (allSamples cs).map sampleRecord := by
  induction cs with
  | nil => intro acc; simp [convertLoop, allSamples]
  | cons c rest ih =>
    intro acc
    rw [convertLoop_cons, if_neg (fun hc => by simpa using hc.1), ih]
    simp [allSamples, List.append_assoc]

theorem allSamples_length (cs : List SampleContainer) :
    (allSamples cs).length = totalSamples cs := by
  induction cs with
  | nil => rfl
  | cons c rest ih => simp [allSamples, totalSamples, ih]

theorem totalSamples_append (a b : List SampleContainer) :
    totalSamples (a ++ b) = totalSamples a + totalSamples b := by
  induction a with
  | nil => simp [totalSamples]
  | cons c rest ih => simp [totalSamples, ih]; omega

/-! ## C6: one record per sample, in order -/

/-- Claim C6, amended: with backpressure inactive, convert emits — for
every input, unconditionally — exactly one record per input sample, in
container order then sample order, each record carrying its own sample's
tag set; and, under the additional hypothesis (present in the spec's
testable property but dropped from the claim) that the samples' tag sets
are pairwise distinct, no two returned records share an identical
(name, tag set, timestamp) identity. -/
theorem c6_one_record_per_sample (cs : List SampleContainer) :
    convertToTimeDynatraceData false cs = (allSamples cs).map sampleRecord
    ∧ (convertToTimeDynatraceData false cs).length = totalSamples cs
    ∧ ((allSamples cs).Pairwise (fun a b => a.tags ≠ b.tags) →
        (convertToTimeDynatraceData false cs).Pairwise
          (fun a b => ¬ (a.name = b.name ∧ a.tags = b.tags ∧ a.timestamp = b.timestamp))) := by
  have he : convertToTimeDynatraceData false cs = (allSamples cs).map sampleRecord := by
    simpa [convertToTimeDynatraceData] using convertLoop_no_backpressure cs []
  refine ⟨he, by rw [he]; simp [allSamples_length], ?_⟩
  intro hdist
  rw [he, List.pairwise_map]
  exact hdist.imp (fun h hc => h hc.2.1)

/-- Two containers with one sample each, distinct tag sets. -/
def c6containers : List SampleContainer :=
  [⟨[⟨"m", 1, 0, [("a", "1")]⟩]⟩, ⟨[⟨"m", 1, 0, [("a", "2")]⟩]⟩]

theorem c6_one_record_per_sample_witness :
    (convertToTimeDynatraceData false c6containers
        = (allSamples c6containers).map sampleRecord
      ∧ (convertToTimeDynatraceData false c6containers).length = totalSamples c6containers)
    ∧ ((allSamples c6containers).Pairwise (fun a b => a.tags ≠ b.tags)
      ∧ (convertToTimeDynatraceData false c6containers).Pairwise
          (fun a b => ¬ (a.name = b.name ∧ a.tags = b.tags ∧ a.timestamp = b.timestamp))) := by
  have h := c6_one_record_per_sample c6containers
  exact ⟨⟨h.1, h.2.1⟩, by decide, h.2.2 (by decide)⟩

/-- A sample that occurs twice in one container. -/
def c6dup : Sample := ⟨"m", 1, 0, [("a", "b")]⟩

/-- Claim C6, counterexample: a container holding the same sample twice
produces two records with identical (name, tag set, timestamp) identity, so
the claim's no-two-records-share-an-identity part fails as universally
stated. -/
theorem c6_duplicate_counterexample :
    convertToTimeDynatraceData false [⟨[c6dup, c6dup]⟩]
      = [sampleRecord c6dup, sampleRecord c6dup]
    ∧ ¬ (convertToTimeDynatraceData false [⟨[c6dup, c6dup]⟩]).Pairwise
        (fun a b => ¬ (a.name = b.name ∧ a.tags = b.tags ∧ a.timestamp = b.timestamp)) := by
  exact ⟨rfl, by decide⟩

/-! ## C7: backpressure flag and truncation -/

theorem convertLoop_break (suf : List SampleContainer) :
    ∀ (pre : List SampleContainer) (acc : List dynatraceMetric),
      pre ≠ [] → acc.length + totalSamples pre > 150000 →
      (convertLoop true acc (pre ++ suf)).length ≤ acc.length + totalSamples pre := by
  intro pre
  induction pre with
  | nil => intro acc h0 _; exact absurd rfl h0
  | cons c rest ih =>
    intro acc _ hgt
    rw [List.cons_append, convertLoop_cons]
    have hlen : (acc ++ c.samples.map sampleRecord).length
        = acc.length + c.samples.length := by simp
    by_cases hcond : (acc ++ c.samples.map sampleRecord).length > 150000
    · rw [if_pos ⟨rfl, hcond⟩]
      simp only [totalSamples]
      omega
    · rw [if_neg (fun hc => hcond hc.2)]
      cases rest with
      | nil =>
        exfalso
        rw [hlen] at hcond
        simp only [totalSamples] at hgt
        omega
      | cons d ds =>
        have hgt2 : (acc ++ c.samples.map sampleRecord).length + totalSamples (d :: ds)
            > 150000 := by
          rw [hlen]
          simp only [totalSamples] at hgt ⊢
          omega
        have hih := ih (acc ++ c.samples.map sampleRecord) (by simp) hgt2
        rw [hlen] at hih
        simp only [totalSamples] at hih ⊢
        omega

/-- Claim C7: on a flush whose send succeeds, the deferred timing block
sets the shared backpressure flag to true exactly when the elapsed time
exceeds the configured flush period and clears it to false otherwise; and a
convert call running with the flag true, once more than 150000 records have
been produced (here: a proper prefix of the containers already contributes
more than 150000 samples and at least one sample remains after it), stops
processing further containers and returns a truncated sequence strictly
shorter than the full input. -/
theorem c7_backpressure (elapsed period : Int) (pre suf : List SampleContainer)
    (hslow : period < elapsed)
    (hpre : totalSamples pre > 150000) (hsuf : 0 < totalSamples suf) :
    (∀ (f : Bool) (cs : List SampleContainer),
        (flush f cs none elapsed period).2.2.2 = true)
    ∧ (∀ (f : Bool) (cs : List SampleContainer) (e p : Int), ¬ p < e →
        (flush f cs none e p).2.2.2 = false)
    ∧ (convertToTimeDynatraceData true (pre ++ suf)).length < totalSamples (pre ++ suf) := by
  refine ⟨?_, ?_, ?_⟩
  · intro f cs
    simp [flush, hslow]
  · intro f cs e p h
    simp [flush, h]
  · have hne : pre ≠ [] := by
      intro h
      rw [h] at hpre
      simp [totalSamples] at hpre
    have hb := convertLoop_break suf pre [] hne (by simpa using hpre)
    rw [totalSamples_append]
    unfold convertToTimeDynatraceData
    simp only [List.length_nil, Nat.zero_add] at hb
    omega

def c7sample : Sample := ⟨"m", 1, 0, []⟩

/-- A single container already holding 150001 samples. -/
def c7pre : List SampleContainer := [⟨List.replicate 150001 c7sample⟩]

/-- One further container with one sample, which the break drops. -/
def c7suf : List SampleContainer := [⟨[c7sample]⟩]

theorem totalSamples_singleton (c : SampleContainer) :
    totalSamples [c] = c.samples.length := by
  simp [totalSamples]

theorem c7_backpressure_witness :
    ((1 : Int) < 2 ∧ totalSamples c7pre > 150000 ∧ 0 < totalSamples c7suf)
    ∧ (convertToTimeDynatraceData true (c7pre ++ c7suf)).length
        < totalSamples (c7pre ++ c7suf) := by
  have h1 : (1 : Int) < 2 := by decide
  have h2 : totalSamples c7pre > 150000 := by
    have he : totalSamples c7pre = 150001 := by
      rw [show c7pre = [SampleContainer.mk (List.replicate 150001 c7sample)] from rfl,
        totalSamples_singleton]
      show (List.replicate 150001 c7sample).length = 150001
      exact List.length_replicate 150001 c7sample
    omega
  have h3 : 0 < totalSamples c7suf := by
    rw [show c7suf = [SampleContainer.mk [c7sample]] from rfl, totalSamples_singleton]
    decide
  exact ⟨⟨h1, h2, h3⟩, (c7_backpressure 2 1 c7pre c7suf h1 h2 h3).2.2⟩

/-! ## C10: ParseArg ignores wrong-typed values, except a bad flushPeriod string -/

theorem parseArg_shape (params : List (String × DynVal)) (c : Config)
    (hc : ParseArg params = Except.ok c) :
    c = parseArgBase params
    ∨ ∃ d s, lookupParam params "flushPeriod" = some (DynVal.str s)
        ∧ c = { parseArgBase params with FlushPeriod := ⟨d, true⟩ } := by
  unfold ParseArg at hc
  rcases hl : lookupParam params "flushPeriod" with _ | v
  · rw [hl] at hc
    injection hc with h
    exact Or.inl h.symm
  · cases v with
    | str s =>
      rw [hl] at hc
      have hc2 : (match goParseDuration s with
          | none => Except.error ("time: invalid duration " ++ s)
          | some d =>
            Except.ok { parseArgBase params with FlushPeriod := ⟨d, true⟩ })
          = Except.ok c := hc
      cases hd : goParseDuration s with
      | none => rw [hd] at hc2; exact Except.noConfusion hc2
      | some d =>
        rw [hd] at hc2
        injection hc2 with h
        exact Or.inr ⟨d, s, rfl, h.symm⟩
    | boolean b => rw [hl] at hc; injection hc with h; exact Or.inl h.symm
    | dict m => rw [hl] at hc; injection hc with h; exact Or.inl h.symm
    | num n => rw [hl] at hc; injection hc with h; exact Or.inl h.symm

/-- Claim C10: for every successfully parsed argument map, ParseArg
silently ignores any recognized key bound to a value of the wrong dynamic
type — it returns no error and leaves the corresponding Config field at its
zero (unset) value — with the single exception of `flushPeriod`: only a
`flushPeriod` bound to a string that fails duration parsing makes ParseArg
return an error. -/
theorem c10_parsearg_wrong_types (params : List (String × DynVal)) :
    ((∀ v, lookupParam params "flushPeriod" ≠ some (DynVal.str v)) →
        (ParseArg params).isOk = true)
    ∧ (∀ v d, lookupParam params "flushPeriod" = some (DynVal.str v) →
        goParseDuration v = some d → (ParseArg params).isOk = true)
    ∧ (∀ v, lookupParam params "flushPeriod" = some (DynVal.str v) →
        goParseDuration v = none →
        ParseArg params = Except.error ("time: invalid duration " ++ v))
    ∧ (∀ c, ParseArg params = Except.ok c →
        ((∀ v, lookupParam params "url" ≠ some (DynVal.str v)) → c.Url = "")
        ∧ ((∀ v, lookupParam params "insecureSkipTLSVerify" ≠ some (DynVal.boolean v)) →
            c.InsecureSkipTLSVerify.valid = false)
        ∧ ((∀ v, lookupParam params "caCertFile" ≠ some (DynVal.str v)) →
            c.CACert.valid = false)
        ∧ ((∀ v, lookupParam params "apitoken" ≠ some (DynVal.str v)) →
            c.ApiToken.valid = false)
        ∧ ((∀ v, lookupParam params "flushPeriod" ≠ some (DynVal.str v)) →
            c.FlushPeriod.valid = false)
        ∧ ((∀ v, lookupParam params "keepTags" ≠ some (DynVal.boolean v)) →
            c.KeepTags.valid = false)
        ∧ ((∀ v, lookupParam params "keepNameTag" ≠ some (DynVal.boolean v)) →
            c.KeepNameTag.valid = false)
        ∧ ((∀ v, lookupParam params "keepUrlTag" ≠ some (DynVal.boolean v)) →
            c.KeepUrlTag.valid = false)
        ∧ ((∀ m, lookupParam params "headers" ≠ some (DynVal.dict m)) → c.Headers = [])) := by
  refine ⟨?_, ?_, ?_, ?_⟩
  · intro h
    unfold ParseArg
    rcases hl : lookupParam params "flushPeriod" with _ | v
    · rfl
    · cases v with
      | str s => exact absurd hl (h s)
      | boolean b => rfl
      | dict m => rfl
      | num n => rfl
  · intro v d hl hd
    simp [ParseArg, hl, hd, Except.isOk, Except.toBool]
  · intro v hl hd
    simp [ParseArg, hl, hd]
  · intro c hc
    have hfp : (∀ v, lookupParam params "flushPeriod" ≠ some (DynVal.str v)) →
        c.FlushPeriod.valid = false := by
      intro h
      rcases parseArg_shape params c hc with h1 | ⟨d, s, hl, h1⟩
      · rw [h1]; rfl
      · exact absurd hl (h s)
    have hbase : c.Url = (parseArgBase params).Url
        ∧ c.InsecureSkipTLSVerify = (parseArgBase params).InsecureSkipTLSVerify
        ∧ c.CACert = (parseArgBase params).CACert
        ∧ c.ApiToken = (parseArgBase params).ApiToken
        ∧ c.KeepTags = (parseArgBase params).KeepTags
        ∧ c.KeepNameTag = (parseArgBase params).KeepNameTag
        ∧ c.KeepUrlTag = (parseArgBase params).KeepUrlTag
        ∧ c.Headers = (parseArgBase params).Headers := by
      rcases parseArg_shape params c hc with h1 | ⟨d, s, hl, h1⟩ <;>
        exact h1 ▸ ⟨rfl, rfl, rfl, rfl, rfl, rfl, rfl, rfl⟩
    obtain ⟨hu, hi, hca, hat, hkt, hknt, hkut, hh⟩ := hbase
    refine ⟨?_, ?_, ?_, ?_, hfp, ?_, ?_, ?_, ?_⟩
    · intro h
      rw [hu, show (parseArgBase params).Url
          = (match lookupParam params "url" with | some (DynVal.str v) => v | _ => "") from rfl]
      rcases hl : lookupParam params "url" with _ | v
      · rfl
      · cases v with
        | str s => exact absurd hl (h s)
        | boolean b => rfl
        | dict m => rfl
        | num n => rfl
    · intro h
      rw [hi, show (parseArgBase params).InsecureSkipTLSVerify
          = (match lookupParam params "insecureSkipTLSVerify" with
             | some (DynVal.boolean v) => (⟨v, true⟩ : NullBool)
             | _ => ⟨false, false⟩) from rfl]
      rcases hl : lookupParam params "insecureSkipTLSVerify" with _ | v
      · rfl
      · cases v with
        | str s => rfl
        | boolean b => exact absurd hl (h b)
        | dict m => rfl
        | num n => rfl
    · intro h
      rw [hca, show (parseArgBase params).CACert
          = (match lookupParam params "caCertFile" with
             | some (DynVal.str v) => (⟨v, true⟩ : NullString)
             | _ => ⟨"", false⟩) from rfl]
      rcases hl : lookupParam params "caCertFile" with _ | v
      · rfl
      · cases v with
        | str s => exact absurd hl (h s)
        | boolean b => rfl
        | dict m => rfl
        | num n => rfl
    · intro h
      rw [hat, show (parseArgBase params).ApiToken
          = (match lookupParam params "apitoken" with
             | some (DynVal.str v) => (⟨v, true⟩ : NullString)
             | _ => ⟨"", false⟩) from rfl]
      rcases hl : lookupParam params "apitoken" with _ | v
      · rfl
      · cases v with
        | str s => exact absurd hl (h s)
        | boolean b => rfl
        | dict m => rfl
        | num n => rfl
    · intro h
      rw [hkt, show (parseArgBase params).KeepTags
          = (match lookupParam params "keepTags" with
             | some (DynVal.boolean v) => (⟨v, true⟩ : NullBool)
             | _ => ⟨false, false⟩) from rfl]
      rcases hl : lookupParam params "keepTags" with _ | v
      · rfl
      · cases v with
        | str s => rfl
        | boolean b => exact absurd hl (h b)
        | dict m => rfl
        | num n => rfl
    · intro h
      rw [hknt, show (parseArgBase params).KeepNameTag
          = (match lookupParam params "keepNameTag" with
             | some (DynVal.boolean v) => (⟨v, true⟩ : NullBool)
             | _ => ⟨false, false⟩) from rfl]
      rcases hl : lookupParam params "keepNameTag" with _ | v
      · rfl
      · cases v with
        | str s => rfl
        | boolean b => exact absurd hl (h b)
        | dict m => rfl
        | num n => rfl
    · intro h
      rw [hkut, show (parseArgBase params).KeepUrlTag
          = (match lookupParam params "keepUrlTag" with
             | some (DynVal.boolean v) => (⟨v, true⟩ : NullBool)
             | _ => ⟨false, false⟩) from rfl]
      rcases hl : lookupParam params "keepUrlTag" with _ | v
      · rfl
      · cases v with
        | str s => rfl
        | boolean b => exact absurd hl (h b)
        | dict m => rfl
        | num n => rfl
    · intro h
      rw [hh, show (parseArgBase params).Headers
          = (match lookupParam params "headers" with
             | some (DynVal.dict m) =>
                 m.filterMap (fun kv =>
                   match kv.2 with
                   | DynLeaf.str s => some (kv.1, s)
                   | _ => none)
             | _ => []) from rfl]
      rcases hl : lookupParam params "headers" with _ | v
      · rfl
      · cases v with
        | str s => rfl
        | boolean b => rfl
        | dict m => exact absurd hl (h m)
        | num n => rfl

/-- An argument map binding every recognized key to a wrong-typed value. -/
def c10params : List (String × DynVal) :=
  [("url", DynVal.boolean true), ("keepTags", DynVal.str "yes"),
   ("flushPeriod", DynVal.num 5), ("headers", DynVal.str "x")]

theorem c10_parsearg_wrong_types_witness :
    (ParseArg c10params).isOk = true
    ∧ (parseArgBase c10params).Url = ""
    ∧ (parseArgBase c10params).KeepTags.valid = false
    ∧ (parseArgBase c10params).FlushPeriod.valid = false
    ∧ (parseArgBase c10params).Headers = [] := by
  have h := c10_parsearg_wrong_types c10params
  have hok := h.1 (fun v hv => by simp [c10params, lookupParam] at hv)
  have hc := h.2.2.2 (parseArgBase c10params) (by rfl)
  refine ⟨hok, ?_, ?_, ?_, ?_⟩
  · exact hc.1 (fun v hv => by simp [c10params, lookupParam] at hv)
  · exact hc.2.2.2.2.2.1 (fun v hv => by simp [c10params, lookupParam] at hv)
  · exact hc.2.2.2.2.1 (fun v hv => by simp [c10params, lookupParam] at hv)
  · exact hc.2.2.2.2.2.2.2.2 (fun m hv => by simp [c10params, lookupParam] at hv)

/-! ## Association-list and Apply lemmas -/

theorem lookupH_setAssoc (m : List (String × String)) (k v k2 : String) :
    lookupH (setAssoc m k v) k2 = if k = k2 then some v else lookupH m k2 := by
  induction m with
  | nil =>
    simp only [setAssoc, lookupH]
  | cons kv rest ih =>
    by_cases h1 : kv.1 = k
    · rw [show setAssoc (kv :: rest) k v = (k, v) :: rest from by simp [setAssoc, h1]]
      by_cases h2 : k = k2
      · simp [lookupH, h2]
      · simp [lookupH, h2, h1]
    · rw [show setAssoc (kv :: rest) k v = kv :: setAssoc rest k v from by simp [setAssoc, h1]]
      by_cases h3 : kv.1 = k2
      · have hk : k ≠ k2 := fun he => h1 (he ▸ h3)
        simp [lookupH, h3, hk]
      · simp [lookupH, h3, ih]

theorem lookupH_not_mem {m : List (String × String)} {k : String}
    (h : k ∉ m.map Prod.fst) : lookupH m k = none := by
  induction m with
  | nil => rfl
  | cons kv rest ih =>
    simp only [List.map_cons, List.mem_cons] at h
    push_neg at h
    show (if kv.1 = k then some kv.2 else lookupH rest k) = none
    rw [if_neg (fun he : kv.1 = k => h.1 he.symm)]
    exact ih h.2

theorem lookupH_foldl_setAssoc (ap : List (String × String)) (k : String) :
    ∀ base : List (String × String), (ap.map Prod.fst).Nodup →
      lookupH (ap.foldl (fun m kv => setAssoc m kv.1 kv.2) base) k
        = lookupOr (lookupH ap k) (lookupH base k) := by
  induction ap with
  | nil => intro base _; simp [lookupH, lookupOr]
  | cons kv rest ih =>
    intro base h
    simp only [List.map_cons, List.nodup_cons] at h
    simp only [List.foldl_cons]
    rw [ih (setAssoc base kv.1 kv.2) h.2]
    by_cases hk : kv.1 = k
    · rw [lookupH_not_mem (hk ▸ h.1), lookupH_setAssoc, if_pos hk]
      simp [lookupH, hk, lookupOr]
    · rw [lookupH_setAssoc, if_neg hk]
      simp [lookupH, hk]

theorem apply_unset_preserves (base applied : Config) :
    (applied.Url = "" → (base.Apply applied).Url = base.Url)
    ∧ (applied.InsecureSkipTLSVerify.valid = false →
        (base.Apply applied).InsecureSkipTLSVerify = base.InsecureSkipTLSVerify)
    ∧ (applied.CACert.valid = false → (base.Apply applied).CACert = base.CACert)
    ∧ (applied.ApiToken.valid = false → (base.Apply applied).ApiToken = base.ApiToken)
    ∧ (applied.FlushPeriod.valid = false → (base.Apply applied).FlushPeriod = base.FlushPeriod)
    ∧ (applied.KeepTags.valid = false → (base.Apply applied).KeepTags = base.KeepTags)
    ∧ (applied.KeepNameTag.valid = false → (base.Apply applied).KeepNameTag = base.KeepNameTag)
    ∧ (applied.KeepUrlTag.valid = false → (base.Apply applied).KeepUrlTag = base.KeepUrlTag)
    ∧ (applied.Headers = [] → (base.Apply applied).Headers = base.Headers) := by
  refine ⟨?_, ?_, ?_, ?_, ?_, ?_, ?_, ?_, ?_⟩ <;> intro h <;> simp [Config.Apply, h]

theorem apply_headers_merge (base applied : Config)
    (h : (applied.Headers.map Prod.fst).Nodup) (k : String) :
    lookupH (base.Apply applied).Headers k
      = lookupOr (lookupH applied.Headers k) (lookupH base.Headers k) := by
  show lookupH (if applied.Headers.length > 0 then
      applied.Headers.foldl (fun m kv => setAssoc m kv.1 kv.2) base.Headers
    else base.Headers) k = _
  by_cases hl : applied.Headers.length > 0
  · rw [if_pos hl]
    exact lookupH_foldl_setAssoc applied.Headers k base.Headers h
  · rw [if_neg hl]
    have he : applied.Headers = [] := List.length_eq_zero.mp (by omega)
    rw [he]
    rfl

/-! ## Environment-stage lemmas -/

theorem except_bind_eq_ok {ε α β : Type} {e : Except ε α} {f : α → Except ε β} {r : β}
    (h : e.bind f = Except.ok r) : ∃ a, e = Except.ok a ∧ f a = Except.ok r := by
  cases e with
  | error err => exact Except.noConfusion h
  | ok a => exact ⟨a, rfl, h⟩

theorem envStepFlush_ok {env : List (String × String)} {cfg r : Config}
    (h : envStepFlush env cfg = Except.ok r) :
    r.Url = cfg.Url ∧ r.Headers = cfg.Headers
    ∧ r.InsecureSkipTLSVerify = cfg.InsecureSkipTLSVerify
    ∧ r.CACert = cfg.CACert ∧ r.ApiToken = cfg.ApiToken
    ∧ (envLookup env "K6_DYNATRACE_FLUSH_PERIOD" = none → r.FlushPeriod = cfg.FlushPeriod)
    ∧ r.KeepTags = cfg.KeepTags ∧ r.KeepNameTag = cfg.KeepNameTag
    ∧ r.KeepUrlTag = cfg.KeepUrlTag := by
  unfold envStepFlush at h
  rcases hl : envLookup env "K6_DYNATRACE_FLUSH_PERIOD" with _ | v
  · rw [hl] at h
    injection h with h
    subst h
    exact ⟨rfl, rfl, rfl, rfl, rfl, fun _ => rfl, rfl, rfl, rfl⟩
  · rw [hl] at h
    have h2 : (match goParseDuration v with
        | none => Except.error ("time: invalid duration " ++ v)
        | some d => Except.ok { cfg with FlushPeriod := ⟨d, true⟩ })
        = Except.ok r := h
    cases hd : goParseDuration v with
    | none => rw [hd] at h2; exact Except.noConfusion h2
    | some d =>
      rw [hd] at h2
      injection h2 with h2
      subst h2
      exact ⟨rfl, rfl, rfl, rfl, rfl, fun hn => Option.noConfusion hn, rfl, rfl, rfl⟩

theorem getEnvBool_undefined {env : List (String × String)} {name : String}
    (hn : envLookup env name = none) : getEnvBool env name = Except.ok ⟨false, false⟩ := by
  unfold getEnvBool
  rw [hn]

theorem envStepSkipTLS_ok {env : List (String × String)} {cfg r : Config}
    (h : envStepSkipTLS env cfg = Except.ok r) :
    r.Url = cfg.Url ∧ r.Headers = cfg.Headers
    ∧ (envLookup env "K6_DYNATRACE_INSECURE_SKIP_TLS_VERIFY" = none →
        r.InsecureSkipTLSVerify = cfg.InsecureSkipTLSVerify)
    ∧ r.CACert = cfg.CACert ∧ r.ApiToken = cfg.ApiToken
    ∧ r.FlushPeriod = cfg.FlushPeriod
    ∧ r.KeepTags = cfg.KeepTags ∧ r.KeepNameTag = cfg.KeepNameTag
    ∧ r.KeepUrlTag = cfg.KeepUrlTag := by
  unfold envStepSkipTLS at h
  rcases hb : getEnvBool env "K6_DYNATRACE_INSECURE_SKIP_TLS_VERIFY" with e | b
  · rw [hb] at h; exact Except.noConfusion h
  · rw [hb] at h
    injection h with h
    subst h
    refine ⟨by split <;> rfl, by split <;> rfl, ?_, by split <;> rfl, by split <;> rfl,
      by split <;> rfl, by split <;> rfl, by split <;> rfl, by split <;> rfl⟩
    intro hn
    rw [getEnvBool_undefined hn] at hb
    injection hb with hb
    subst hb
    rfl

theorem envStepKeepTags_ok {env : List (String × String)} {cfg r : Config}
    (h : envStepKeepTags env cfg = Except.ok r) :
    r.Url = cfg.Url ∧ r.Headers = cfg.Headers
    ∧ r.InsecureSkipTLSVerify = cfg.InsecureSkipTLSVerify
    ∧ r.CACert = cfg.CACert ∧ r.ApiToken = cfg.ApiToken
    ∧ r.FlushPeriod = cfg.FlushPeriod
    ∧ (envLookup env "K6_KEEP_TAGS" = none → r.KeepTags = cfg.KeepTags)
    ∧ r.KeepNameTag = cfg.KeepNameTag
    ∧ r.KeepUrlTag = cfg.KeepUrlTag := by
  unfold envStepKeepTags at h
  rcases hb : getEnvBool env "K6_KEEP_TAGS" with e | b
  · rw [hb] at h; exact Except.noConfusion h
  · rw [hb] at h
    injection h with h
    subst h
    refine ⟨by split <;> rfl, by split <;> rfl, by split <;> rfl, by split <;> rfl,
      by split <;> rfl, by split <;> rfl, ?_, by split <;> rfl, by split <;> rfl⟩
    intro hn
    rw [getEnvBool_undefined hn] at hb
    injection hb with hb
    subst hb
    rfl

theorem envStepKeepNameTag_ok {env : List (String × String)} {cfg r : Config}
    (h : envStepKeepNameTag env cfg = Except.ok r) :
    r.Url = cfg.Url ∧ r.Headers = cfg.Headers
    ∧ r.InsecureSkipTLSVerify = cfg.InsecureSkipTLSVerify
    ∧ r.CACert = cfg.CACert ∧ r.ApiToken = cfg.ApiToken
    ∧ r.FlushPeriod = cfg.FlushPeriod
    ∧ r.KeepTags = cfg.KeepTags
    ∧ (envLookup env "K6_KEEP_NAME_TAG" = none → r.KeepNameTag = cfg.KeepNameTag)
    ∧ r.KeepUrlTag = cfg.KeepUrlTag := by
  unfold envStepKeepNameTag at h
  rcases hb : getEnvBool env "K6_KEEP_NAME_TAG" with e | b
  · rw [hb] at h; exact Except.noConfusion h
  · rw [hb] at h
    injection h with h
    subst h
    refine ⟨by split <;> rfl, by split <;> rfl, by split <;> rfl, by split <;> rfl,
      by split <;> rfl, by split <;> rfl, by split <;> rfl, ?_, by split <;> rfl⟩
    intro hn
    rw [getEnvBool_undefined hn] at hb
    injection hb with hb
    subst hb
    rfl

theorem envStepKeepUrlTag_ok {env : List (String × String)} {cfg r : Config}
    (h : envStepKeepUrlTag env cfg = Except.ok r) :
    r.Url = cfg.Url ∧ r.Headers = cfg.Headers
    ∧ r.InsecureSkipTLSVerify = cfg.InsecureSkipTLSVerify
    ∧ r.CACert = cfg.CACert ∧ r.ApiToken = cfg.ApiToken
    ∧ r.FlushPeriod = cfg.FlushPeriod
    ∧ r.KeepTags = cfg.KeepTags ∧ r.KeepNameTag = cfg.KeepNameTag
    ∧ (envLookup env "K6_KEEP_URL_TAG" = none → r.KeepUrlTag = cfg.KeepUrlTag) := by
  unfold envStepKeepUrlTag at h
  rcases hb : getEnvBool env "K6_KEEP_URL_TAG" with e | b
  · rw [hb] at h; exact Except.noConfusion h
  · rw [hb] at h
    injection h with h
    subst h
    refine ⟨by split <;> rfl, by split <;> rfl, by split <;> rfl, by split <;> rfl,
      by split <;> rfl, by split <;> rfl, by split <;> rfl, by split <;> rfl, ?_⟩
    intro hn
    rw [getEnvBool_undefined hn] at hb
    injection hb with hb
    subst hb
    rfl

theorem envStepUrl_ok (env : List (String × String)) (cfg : Config) :
    (envStepUrl env cfg).Url
        = (match envLookup env "K6_DYNATRACE_URL" with | some u => u | none => cfg.Url)
    ∧ (envStepUrl env cfg).Headers = cfg.Headers
    ∧ (envStepUrl env cfg).InsecureSkipTLSVerify = cfg.InsecureSkipTLSVerify
    ∧ (envStepUrl env cfg).CACert = cfg.CACert
    ∧ (envStepUrl env cfg).ApiToken = cfg.ApiToken
    ∧ (envStepUrl env cfg).FlushPeriod = cfg.FlushPeriod
    ∧ (envStepUrl env cfg).KeepTags = cfg.KeepTags
    ∧ (envStepUrl env cfg).KeepNameTag = cfg.KeepNameTag
    ∧ (envStepUrl env cfg).KeepUrlTag = cfg.KeepUrlTag := by
  unfold envStepUrl
  cases envLookup env "K6_DYNATRACE_URL" <;>
    exact ⟨rfl, rfl, rfl, rfl, rfl, rfl, rfl, rfl, rfl⟩

theorem envStepCACert_ok (env : List (String × String)) (cfg : Config) :
    (envStepCACert env cfg).CACert
        = (match envLookup env "K6_CA_CERT_FILE" with
           | some v => (⟨v, true⟩ : NullString) | none => cfg.CACert)
    ∧ (envStepCACert env cfg).Url = cfg.Url
    ∧ (envStepCACert env cfg).Headers = cfg.Headers
    ∧ (envStepCACert env cfg).InsecureSkipTLSVerify = cfg.InsecureSkipTLSVerify
    ∧ (envStepCACert env cfg).ApiToken = cfg.ApiToken
    ∧ (envStepCACert env cfg).FlushPeriod = cfg.FlushPeriod
    ∧ (envStepCACert env cfg).KeepTags = cfg.KeepTags
    ∧ (envStepCACert env cfg).KeepNameTag = cfg.KeepNameTag
    ∧ (envStepCACert env cfg).KeepUrlTag = cfg.KeepUrlTag := by
  unfold envStepCACert
  cases envLookup env "K6_CA_CERT_FILE" <;>
    exact ⟨rfl, rfl, rfl, rfl, rfl, rfl, rfl, rfl, rfl⟩

theorem envStepApiToken_ok (env : List (String × String)) (cfg : Config) :
    (envStepApiToken env cfg).ApiToken
        = (match envLookup env "K6_DYNATRACE_APITOKEN" with
           | some v => (⟨v, true⟩ : NullString) | none => cfg.ApiToken)
    ∧ (envStepApiToken env cfg).Url = cfg.Url
    ∧ (envStepApiToken env cfg).Headers = cfg.Headers
    ∧ (envStepApiToken env cfg).InsecureSkipTLSVerify = cfg.InsecureSkipTLSVerify
    ∧ (envStepApiToken env cfg).CACert = cfg.CACert
    ∧ (envStepApiToken env cfg).FlushPeriod = cfg.FlushPeriod
    ∧ (envStepApiToken env cfg).KeepTags = cfg.KeepTags
    ∧ (envStepApiToken env cfg).KeepNameTag = cfg.KeepNameTag
    ∧ (envStepApiToken env cfg).KeepUrlTag = cfg.KeepUrlTag := by
  unfold envStepApiToken
  cases envLookup env "K6_DYNATRACE_APITOKEN" <;>
    exact ⟨rfl, rfl, rfl, rfl, rfl, rfl, rfl, rfl, rfl⟩

/-- Success characterization of the environment layer: the three string
variables overwrite their fields whenever defined; the duration and boolean
fields keep the incoming value when their variable is undefined; the header
map is the env-header merge of the incoming map. -/
theorem applyEnvStage_ok {cfg : Config} {env : List (String × String)} {r : Config}
    (h : applyEnvStage cfg env = Except.ok r) :
    r.Url = (match envLookup env "K6_DYNATRACE_URL" with | some u => u | none => cfg.Url)
    ∧ r.CACert = (match envLookup env "K6_CA_CERT_FILE" with
        | some v => (⟨v, true⟩ : NullString) | none => cfg.CACert)
    ∧ r.ApiToken = (match envLookup env "K6_DYNATRACE_APITOKEN" with
        | some v => (⟨v, true⟩ : NullString) | none => cfg.ApiToken)
    ∧ (envLookup env "K6_DYNATRACE_FLUSH_PERIOD" = none → r.FlushPeriod = cfg.FlushPeriod)
    ∧ (envLookup env "K6_DYNATRACE_INSECURE_SKIP_TLS_VERIFY" = none →
        r.InsecureSkipTLSVerify = cfg.InsecureSkipTLSVerify)
    ∧ (envLookup env "K6_KEEP_TAGS" = none → r.KeepTags = cfg.KeepTags)
    ∧ (envLookup env "K6_KEEP_NAME_TAG" = none → r.KeepNameTag = cfg.KeepNameTag)
    ∧ (envLookup env "K6_KEEP_URL_TAG" = none → r.KeepUrlTag = cfg.KeepUrlTag)
    ∧ r.Headers = (envHeaderPairs env).foldl (fun m kv => setAssoc m kv.1 kv.2) cfg.Headers := by
  unfold applyEnvStage at h
  obtain ⟨c1, h1, h⟩ := except_bind_eq_ok h
  obtain ⟨c3, h3, h⟩ := except_bind_eq_ok h
  obtain ⟨c6, h6, h⟩ := except_bind_eq_ok h
  obtain ⟨c7, h7, h⟩ := except_bind_eq_ok h
  obtain ⟨c8, h8, h⟩ := except_bind_eq_ok h
  injection h with h
  subst h
  obtain ⟨f1u, f1h, f1i, f1c, f1a, f1fp, f1kt, f1knt, f1kut⟩ := envStepFlush_ok h1
  obtain ⟨uu, uh, ui, uc, ua, ufp, ukt, uknt, ukut⟩ := envStepUrl_ok env c1
  obtain ⟨f3u, f3h, f3i, f3c, f3a, f3fp, f3kt, f3knt, f3kut⟩ := envStepSkipTLS_ok h3
  obtain ⟨cc, cu, ch, ci, ca, cfp, ckt, cknt, ckut⟩ := envStepCACert_ok env c3
  obtain ⟨aa, au, ah, ai, ac, afp, akt, aknt, akut⟩ :=
    envStepApiToken_ok env (envStepCACert env c3)
  obtain ⟨f6u, f6h, f6i, f6c, f6a, f6fp, f6kt, f6knt, f6kut⟩ := envStepKeepTags_ok h6
  obtain ⟨f7u, f7h, f7i, f7c, f7a, f7fp, f7kt, f7knt, f7kut⟩ := envStepKeepNameTag_ok h7
  obtain ⟨f8u, f8h, f8i, f8c, f8a, f8fp, f8kt, f8knt, f8kut⟩ := envStepKeepUrlTag_ok h8
  refine ⟨?_, ?_, ?_, ?_, ?_, ?_, ?_, ?_, ?_⟩
  · show c8.Url = _
    rw [f8u, f7u, f6u, au, cu, f3u, uu, f1u]
  · show c8.CACert = _
    rw [f8c, f7c, f6c, ac, cc, f3c, uc, f1c]
  · show c8.ApiToken = _
    rw [f8a, f7a, f6a, aa, ca, f3a, ua, f1a]
  · intro hn
    show c8.FlushPeriod = _
    rw [f8fp, f7fp, f6fp, afp, cfp, f3fp, ufp, f1fp hn]
  · intro hn
    show c8.InsecureSkipTLSVerify = _
    rw [f8i, f7i, f6i, ai, ci, f3i hn, ui, f1i]
  · intro hn
    show c8.KeepTags = _
    rw [f8kt, f7kt, f6kt hn, akt, ckt, f3kt, ukt, f1kt]
  · intro hn
    show c8.KeepNameTag = _
    rw [f8knt, f7knt hn, f6knt, aknt, cknt, f3knt, uknt, f1knt]
  · intro hn
    show c8.KeepUrlTag = _
    rw [f8kut hn, f7kut, f6kut, akut, ckut, f3kut, ukut, f1kut]
  · show ((envHeaderPairs env).foldl (fun m kv => setAssoc m kv.1 kv.2) c8.Headers) = _
    rw [f8h, f7h, f6h, ah, ch, f3h, uh, f1h]

/-! ## C4: null/empty later values and the merge -/

/-- Claim C4, counterexample: an environment variable defined with the
empty string does blank the URL — `GetConsolidatedConfig` with
`K6_DYNATRACE_URL=""` returns a Config whose Url is `""`, not the default
it inherited. -/
theorem c4_empty_env_counterexample :
    (GetConsolidatedConfig none [("K6_DYNATRACE_URL", "")] none).map Config.Url
      = Except.ok ""
    ∧ ("" : String) ≠ NewConfig.Url := by
  exact ⟨rfl, by decide⟩

/-- Claim C4, amended: in the two Apply-based layers (JSON blob and
argument string) a null or empty later value never overrides an earlier
value, field by field; in the environment layer an undefined variable never
overrides — but a variable that is defined, even as the empty string,
does override: it blanks the URL and turns the CA cert path and API token
into valid empty strings. -/
theorem c4_unset_never_overrides :
    (∀ base applied : Config,
      (applied.Url = "" → (base.Apply applied).Url = base.Url)
      ∧ (applied.InsecureSkipTLSVerify.valid = false →
          (base.Apply applied).InsecureSkipTLSVerify = base.InsecureSkipTLSVerify)
      ∧ (applied.CACert.valid = false → (base.Apply applied).CACert = base.CACert)
      ∧ (applied.ApiToken.valid = false → (base.Apply applied).ApiToken = base.ApiToken)
      ∧ (applied.FlushPeriod.valid = false →
          (base.Apply applied).FlushPeriod = base.FlushPeriod)
      ∧ (applied.KeepTags.valid = false → (base.Apply applied).KeepTags = base.KeepTags)
      ∧ (applied.KeepNameTag.valid = false →
          (base.Apply applied).KeepNameTag = base.KeepNameTag)
      ∧ (applied.KeepUrlTag.valid = false →
          (base.Apply applied).KeepUrlTag = base.KeepUrlTag)
      ∧ (applied.Headers = [] → (base.Apply applied).Headers = base.Headers))
    ∧ (∀ (cfg r : Config) (env : List (String × String)),
        applyEnvStage cfg env = Except.ok r →
        (envLookup env "K6_DYNATRACE_URL" = none → r.Url = cfg.Url)
        ∧ (envLookup env "K6_DYNATRACE_URL" = some "" → r.Url = "")
        ∧ (envLookup env "K6_CA_CERT_FILE" = none → r.CACert = cfg.CACert)
        ∧ (envLookup env "K6_CA_CERT_FILE" = some "" → r.CACert = ⟨"", true⟩)
        ∧ (envLookup env "K6_DYNATRACE_APITOKEN" = none → r.ApiToken = cfg.ApiToken)
        ∧ (envLookup env "K6_DYNATRACE_APITOKEN" = some "" → r.ApiToken = ⟨"", true⟩)) := by
  refine ⟨apply_unset_preserves, ?_⟩
  intro cfg r env h
  have H := applyEnvStage_ok h
  refine ⟨?_, ?_, ?_, ?_, ?_, ?_⟩
  · intro hn; rw [H.1, hn]
  · intro hs; rw [H.1, hs]
  · intro hn; rw [H.2.1, hn]
  · intro hs; rw [H.2.1, hs]
  · intro hn; rw [H.2.2.1, hn]
  · intro hs; rw [H.2.2.1, hs]

/-- The env layer of the C4 witness: URL defined as the empty string. -/
def c4env : List (String × String) := [("K6_DYNATRACE_URL", "")]

/-- The outcome of the C4 witness env layer. -/
def c4r : Config := { NewConfig with Url := "" }

theorem c4_unset_never_overrides_witness :
    zeroConfig.Url = ""
    ∧ (NewConfig.Apply zeroConfig).Url = NewConfig.Url
    ∧ applyEnvStage NewConfig c4env = Except.ok c4r
    ∧ c4r.Url = "" := by
  have h := c4_unset_never_overrides
  exact ⟨rfl, (h.1 NewConfig zeroConfig).1 rfl, rfl, (h.2 NewConfig c4r c4env rfl).2.1 rfl⟩

/-! ## C1: the layered merge preserves earlier values and merges headers by key -/

/-- Claim C1: for every layer combination accepted without error, stage by
stage: a field absent from the JSON layer keeps the default, a field whose
environment variable is undefined keeps the value coming out of the JSON
layer, a field unset in the parsed argument config keeps the value coming
out of the environment layer — so a field set only in an earlier layer and
absent from all later layers retains the earlier layer's value in
`GetConsolidatedConfig`'s result — and each layer's header map merges by
key: a later layer's key wins while absent keys fall through to the
earlier map. -/
theorem c1_layered_merge (jsonConf : Option Config) (env : List (String × String))
    (arg : Option (List (String × DynVal))) (s2 result : Config)
    (h2 : applyEnvStage (applyJsonStage NewConfig jsonConf) env = Except.ok s2)
    (h3 : applyArgStage s2 arg = Except.ok result) :
    GetConsolidatedConfig jsonConf env arg = Except.ok result
    ∧ (jsonConf = none → applyJsonStage NewConfig jsonConf = NewConfig)
    ∧ (∀ j, jsonConf = some j →
        (j.Url = "" → (applyJsonStage NewConfig jsonConf).Url = NewConfig.Url)
        ∧ (j.InsecureSkipTLSVerify.valid = false →
            (applyJsonStage NewConfig jsonConf).InsecureSkipTLSVerify
              = NewConfig.InsecureSkipTLSVerify)
        ∧ (j.CACert.valid = false →
            (applyJsonStage NewConfig jsonConf).CACert = NewConfig.CACert)
        ∧ (j.ApiToken.valid = false →
            (applyJsonStage NewConfig jsonConf).ApiToken = NewConfig.ApiToken)
        ∧ (j.FlushPeriod.valid = false →
            (applyJsonStage NewConfig jsonConf).FlushPeriod = NewConfig.FlushPeriod)
        ∧ (j.KeepTags.valid = false →
            (applyJsonStage NewConfig jsonConf).KeepTags = NewConfig.KeepTags)
        ∧ (j.KeepNameTag.valid = false →
            (applyJsonStage NewConfig jsonConf).KeepNameTag = NewConfig.KeepNameTag)
        ∧ (j.KeepUrlTag.valid = false →
            (applyJsonStage NewConfig jsonConf).KeepUrlTag = NewConfig.KeepUrlTag)
        ∧ (∀ k, (j.Headers.map Prod.fst).Nodup →
            lookupH (applyJsonStage NewConfig jsonConf).Headers k
              = lookupOr (lookupH j.Headers k) (lookupH NewConfig.Headers k)))
    ∧ ((envLookup env "K6_DYNATRACE_URL" = none →
          s2.Url = (applyJsonStage NewConfig jsonConf).Url)
        ∧ (envLookup env "K6_DYNATRACE_INSECURE_SKIP_TLS_VERIFY" = none →
            s2.InsecureSkipTLSVerify = (applyJsonStage NewConfig jsonConf).InsecureSkipTLSVerify)
        ∧ (envLookup env "K6_CA_CERT_FILE" = none →
            s2.CACert = (applyJsonStage NewConfig jsonConf).CACert)
        ∧ (envLookup env "K6_DYNATRACE_APITOKEN" = none →
            s2.ApiToken = (applyJsonStage NewConfig jsonConf).ApiToken)
        ∧ (envLookup env "K6_DYNATRACE_FLUSH_PERIOD" = none →
            s2.FlushPeriod = (applyJsonStage NewConfig jsonConf).FlushPeriod)
        ∧ (envLookup env "K6_KEEP_TAGS" = none →
            s2.KeepTags = (applyJsonStage NewConfig jsonConf).KeepTags)
        ∧ (envLookup env "K6_KEEP_NAME_TAG" = none →
            s2.KeepNameTag = (applyJsonStage NewConfig jsonConf).KeepNameTag)
        ∧ (envLookup env "K6_KEEP_URL_TAG" = none →
            s2.KeepUrlTag = (applyJsonStage NewConfig jsonConf).KeepUrlTag)
        ∧ (∀ k, ((envHeaderPairs env).map Prod.fst).Nodup →
            lookupH s2.Headers k
              = lookupOr (lookupH (envHeaderPairs env) k)
                  (lookupH (applyJsonStage NewConfig jsonConf).Headers k)))
    ∧ (arg = none → result = s2)
    ∧ (∀ params argConf, arg = some params → ParseArg params = Except.ok argConf →
        (argConf.Url = "" → result.Url = s2.Url)
        ∧ (argConf.InsecureSkipTLSVerify.valid = false →
            result.InsecureSkipTLSVerify = s2.InsecureSkipTLSVerify)
        ∧ (argConf.CACert.valid = false → result.CACert = s2.CACert)
        ∧ (argConf.ApiToken.valid = false → result.ApiToken = s2.ApiToken)
        ∧ (argConf.FlushPeriod.valid = false → result.FlushPeriod = s2.FlushPeriod)
        ∧ (argConf.KeepTags.valid = false → result.KeepTags = s2.KeepTags)
        ∧ (argConf.KeepNameTag.valid = false → result.KeepNameTag = s2.KeepNameTag)
        ∧ (argConf.KeepUrlTag.valid = false → result.KeepUrlTag = s2.KeepUrlTag)
        ∧ (∀ k, (argConf.Headers.map Prod.fst).Nodup →
            lookupH result.Headers k
              = lookupOr (lookupH argConf.Headers k) (lookupH s2.Headers k))) := by
  have H := applyEnvStage_ok h2
  refine ⟨?_, ?_, ?_, ?_, ?_, ?_⟩
  · unfold GetConsolidatedConfig
    rw [h2]
    exact h3
  · intro hj
    subst hj
    rfl
  · intro j hj
    subst hj
    have A := apply_unset_preserves NewConfig j
    exact ⟨A.1, A.2.1, A.2.2.1, A.2.2.2.1, A.2.2.2.2.1, A.2.2.2.2.2.1, A.2.2.2.2.2.2.1,
      A.2.2.2.2.2.2.2.1,
      fun k hnd => apply_headers_merge NewConfig j hnd k⟩
  · refine ⟨?_, H.2.2.2.2.1, ?_, ?_, H.2.2.2.1, H.2.2.2.2.2.1, H.2.2.2.2.2.2.1,
      H.2.2.2.2.2.2.2.1, ?_⟩
    · intro hn; rw [H.1, hn]
    · intro hn; rw [H.2.1, hn]
    · intro hn; rw [H.2.2.1, hn]
    · intro k hnd
      rw [H.2.2.2.2.2.2.2.2]
      exact lookupH_foldl_setAssoc (envHeaderPairs env) k _ hnd
  · intro ha
    subst ha
    injection h3 with h3
    exact h3.symm
  · intro params argConf hp hc
    subst hp
    unfold applyArgStage at h3
    have h4 : (match ParseArg params with
        | Except.error e => Except.error e
        | Except.ok argConf2 => Except.ok (s2.Apply argConf2)) = Except.ok result := h3
    rw [hc] at h4
    injection h4 with h4
    subst h4
    have A := apply_unset_preserves s2 argConf
    exact ⟨A.1, A.2.1, A.2.2.1, A.2.2.2.1, A.2.2.2.2.1, A.2.2.2.2.2.1, A.2.2.2.2.2.2.1,
      A.2.2.2.2.2.2.2.1,
      fun k hnd => apply_headers_merge s2 argConf hnd k⟩

/-- The JSON layer of the C1 witness: only the URL and one header set. -/
def c1json : Config :=
  { zeroConfig with Url := "https://json.example", Headers := [("A", "1")] }

/-- The consolidated outcome of the C1 witness: the JSON URL and header
survive, the env layer sets only the API token, the defaults fill the
rest. -/
def c1w : Config :=
  { NewConfig with
    Url := "https://json.example"
    Headers := [("A", "1")]
    ApiToken := ⟨"tok", true⟩ }

set_option maxRecDepth 100000 in
theorem c1_layered_merge_witness :
    applyEnvStage (applyJsonStage NewConfig (some c1json))
        [("K6_DYNATRACE_APITOKEN", "tok")] = Except.ok c1w
    ∧ applyArgStage c1w none = Except.ok c1w
    ∧ GetConsolidatedConfig (some c1json) [("K6_DYNATRACE_APITOKEN", "tok")] none
        = Except.ok c1w := by
  have he : applyEnvStage (applyJsonStage NewConfig (some c1json))
      [("K6_DYNATRACE_APITOKEN", "tok")] = Except.ok c1w := by rfl
  have ha : applyArgStage c1w none = Except.ok c1w := by rfl
  exact ⟨he, ha, (c1_layered_merge (some c1json) [("K6_DYNATRACE_APITOKEN", "tok")] none
    c1w c1w he ha).1⟩

end dynatracewriter
